import Mathlib

/-!
Verification of the Keyless door-lock controller (src/Keyless/Keyless.ino).

The sketch is embedded shallowly: the global variables, the three motor
output pins and the EEPROM content form a `State`; the input pins read with
`digitalRead` form an `Inputs` snapshot; `millis()` is passed in as `now`.
Busy-wait `delay` calls have no state effect and are dropped; `Serial`
output is dropped.  The uninitialized local `motor_direction` in
`StartMotor` is modelled by an extra parameter `junk` holding its
indeterminate value.  Three instrumentation counters (`nStops`, `nStarts`,
`nConfWrites`) count stop-motor calls, motion starts and configuration
persists; they are ghost fields written next to the corresponding source
effects and read by no branch condition.
-/

namespace Keyless

/-- Milliseconds of missing encoder progress before an obstacle is declared
(`#define MOTOR_TIMEOUT 250`). -/
def MOTOR_TIMEOUT : Nat := 250

/-- Milliseconds to wait for the door to open after an Open motion completes
(`#define SECURITY_TIMEOUT 3000`). -/
def SECURITY_TIMEOUT : Nat := 3000

/-- `enum eOperations { opNothing = 0, opOpen, opRelease, opLock, opUnlock }`. -/
inductive Operation where
  | opNothing
  | opOpen
  | opRelease
  | opLock
  | opUnlock
  deriving DecidableEq, Repr

/-- `enum eMPositions { posLocked, posOpen, posReleased }`. -/
inductive MPosition where
  | posLocked
  | posOpen
  | posReleased
  deriving DecidableEq, Repr

/-- `enum eCalibrationSteps { calNothing = 0, calOpen, calClose, calFinish }`. -/
inductive CalStep where
  | calNothing
  | calOpen
  | calClose
  | calFinish
  deriving DecidableEq, Repr

open Operation MPosition CalStep

/-- `enum eDirections { dirClose, dirOpen }`: dirClose = 0 = false. -/
def dirClose : Bool := false

/-- `enum eDirections`: dirOpen = 1 = true. -/
def dirOpen : Bool := true

/-- `struct ConfStuct` (sic): the three calibrated pulse lengths. -/
structure ConfStuct where
  len_open : Int
  len_close : Int
  len_release : Int
  deriving DecidableEq, Repr

/-- EEPROM model: the configuration record at `EEPROM_LOC_CONF` and the
last-position byte at `EEPROM_LOC_LAST`. -/
structure Store where
  conf : ConfStuct
  lastPos : MPosition
  deriving DecidableEq, Repr

/-- Snapshot of the input pins read with `digitalRead`; `true` = HIGH,
`false` = LOW.  All inputs use the internal pull-up, so an inserted jumper
or a pressed (active-low) button reads LOW. -/
structure Inputs where
  jReset : Bool
  jErrorYes : Bool
  jNoRelease : Bool
  button : Bool
  sensor : Bool
  dayNight : Bool
  deriving DecidableEq, Repr

/-- The sketch's global variables, the motor output pins
(`PIN_MOTOR_1`, `PIN_MOTOR_2`, `PIN_MOTOR_ENABLE`), the EEPROM, and the
three instrumentation counters. -/
structure State where
  DayAndNight : Bool
  DoorStatus : Bool
  MotorIsMoving : Bool
  MotorCounter : Nat
  PrevCounter : Int
  ObstacleTimeout : Nat
  SecurityTimeout : Nat
  RequestedPulses : Int
  CurrentMotorPosition : MPosition
  PreviousMotorPosition : MPosition
  LastOperation : Operation
  CalibrationStep : CalStep
  configuration : ConfStuct
  pinMotor1 : Bool
  pinMotor2 : Bool
  pinMotorEnable : Bool
  store : Store
  nStops : Nat
  nStarts : Nat
  nConfWrites : Nat
  deriving DecidableEq, Repr

/-- `void StartMotor()`.  The `opLock` case first runs `delay(LOCK_WAIT)`
and returns if the global `DoorStatus` is HIGH; that early return is hoisted
in front of the common tail here.  The local `motor_direction` is declared
without an initializer and the `switch` has no `default`, so when
`LastOperation = opNothing` the pins are driven from the indeterminate value
`junk` and `RequestedPulses` keeps its stale previous value. -/
def StartMotor (i : Inputs) (now : Nat) (junk : Bool) (s : State) : State :=
  if s.MotorIsMoving then s
  else if s.LastOperation = opLock ∧ s.DoorStatus then s
  else
    let motor_direction : Bool :=
      match s.LastOperation with
      | opOpen => dirOpen
      | opRelease => dirClose
      | opLock => dirClose
      | opUnlock => dirOpen
      | opNothing => junk
    let requested : Int :=
      match s.LastOperation with
      | opOpen => 750
      | opRelease => s.configuration.len_release
      | opLock =>
          s.configuration.len_close +
            (if i.jNoRelease = false then s.configuration.len_release else 0)
      | opUnlock =>
          s.configuration.len_close +
            (if i.jNoRelease = false then s.configuration.len_release else 0)
      | opNothing => s.RequestedPulses
    { s with
      MotorIsMoving := true
      PrevCounter := -1
      MotorCounter := 0
      ObstacleTimeout := now
      RequestedPulses := requested
      pinMotor1 := motor_direction
      pinMotor2 := !motor_direction
      pinMotorEnable := true
      nStarts := s.nStarts + 1 }

/-- `void StopMotor()`: clears both direction pins, clears `MotorIsMoving`,
disables the driver, shadows the position, computes the new position from
`LastOperation` (no `switch` case matches `opNothing`, leaving the position
unchanged), persists the new position at `EEPROM_LOC_LAST`, and clears
`LastOperation`. -/
def StopMotor (now : Nat) (s : State) : State :=
  let s1 : State :=
    { s with
      pinMotor1 := false
      pinMotor2 := false
      MotorIsMoving := false
      pinMotorEnable := false
      PreviousMotorPosition := s.CurrentMotorPosition
      nStops := s.nStops + 1 }
  let pos : MPosition :=
    match s1.LastOperation with
    | opUnlock => posOpen
    | opOpen => posOpen
    | opRelease => posReleased
    | opLock => posLocked
    | opNothing => s1.CurrentMotorPosition
  let sec : Nat :=
    match s1.LastOperation with
    | opUnlock => now
    | opOpen => now
    | _ => s1.SecurityTimeout
  { s1 with
    CurrentMotorPosition := pos
    SecurityTimeout := sec
    store := { s1.store with lastPos := pos }
    LastOperation := opNothing }

/-- `void GetEncoder()`: the ISR, sole incrementer of `MotorCounter`. -/
def GetEncoder (s : State) : State :=
  { s with MotorCounter := s.MotorCounter + 1 }

/-- `void DoCalibration()`: in an active step (`calOpen`/`calClose`) starts
a full-range motion in that phase's direction; in `calFinish` resets the
step to `calNothing` and persists the configuration record as a unit
(`EEPROM.put(EEPROM_LOC_CONF, configuration)`); in `calNothing` does
nothing (the `if (CalibrationStep > 0)` guard fails). -/
def DoCalibration (now : Nat) (s : State) : State :=
  match s.CalibrationStep with
  | calOpen =>
    { s with
      MotorIsMoving := true
      PrevCounter := -1
      MotorCounter := 0
      RequestedPulses := 1000
      ObstacleTimeout := now
      pinMotor1 := dirOpen
      pinMotor2 := !dirOpen
      pinMotorEnable := true
      nStarts := s.nStarts + 1 }
  | calClose =>
    { s with
      MotorIsMoving := true
      PrevCounter := -1
      MotorCounter := 0
      RequestedPulses := 1000
      ObstacleTimeout := now
      pinMotor1 := dirClose
      pinMotor2 := !dirClose
      pinMotorEnable := true
      nStarts := s.nStarts + 1 }
  | calFinish =>
    { s with
      CalibrationStep := calNothing
      store := { s.store with conf := s.configuration }
      nConfWrites := s.nConfWrites + 1 }
  | calNothing => s

/-- `void OpenDoor()`: debounces (`delay(50)`) then re-reads the button and
returns if it is HIGH (released); otherwise assigns `LastOperation` for the
`posReleased` and `posLocked` positions only (no case for `posOpen`) and
calls `StartMotor`. -/
def OpenDoor (i : Inputs) (now : Nat) (junk : Bool) (s : State) : State :=
  if i.button then s
  else
    let op : Operation :=
      match s.CurrentMotorPosition with
      | posReleased => opOpen
      | posLocked => opUnlock
      | posOpen => s.LastOperation
    StartMotor i now junk { s with LastOperation := op }

/-- `void StopByObstacle()`: stops the motor, then during calibration
records the measured `MotorCounter` into the phase's configuration field
(`len_release` or `len_open` depending on the no-release jumper for the
open phase, `len_close` for the close phase), advances the step and calls
`DoCalibration`; during normal operation calls `OpenDoor` only when the
error-yes jumper pin reads HIGH. -/
def StopByObstacle (i : Inputs) (now : Nat) (junk : Bool) (s : State) : State :=
  let s1 := StopMotor now s
  match s1.CalibrationStep with
  | calOpen =>
    let conf : ConfStuct :=
      if i.jNoRelease = false then
        { s1.configuration with len_release := (s1.MotorCounter : Int) }
      else
        { s1.configuration with len_open := (s1.MotorCounter : Int) }
    DoCalibration now { s1 with configuration := conf, CalibrationStep := calClose }
  | calClose =>
    DoCalibration now
      { s1 with
        configuration := { s1.configuration with len_close := (s1.MotorCounter : Int) }
        CalibrationStep := calFinish }
  | _ =>
    if i.jErrorYes then OpenDoor i now junk s1 else s1

/-- One iteration of `void loop()`: refresh `DoorStatus`/`DayAndNight`,
then either run the progress/stall check while moving, or run the idle
dispatcher (button, lock-when-released, and `posOpen` handling — note the
source keeps assigning `LastOperation` before each `StartMotor` call even
when an earlier dispatch in the same iteration already started a motion). -/
def loop (i : Inputs) (now : Nat) (junk : Bool) (s : State) : State :=
  let s0 : State := { s with DoorStatus := i.sensor, DayAndNight := i.dayNight }
  if s0.MotorIsMoving then
    if s0.PrevCounter ≠ (s0.MotorCounter : Int) then
      let s1 : State :=
        { s0 with PrevCounter := (s0.MotorCounter : Int), ObstacleTimeout := now }
      if (s1.MotorCounter : Int) ≥ s1.RequestedPulses then StopMotor now s1 else s1
    else
      if now - s0.ObstacleTimeout > MOTOR_TIMEOUT then StopByObstacle i now junk s0
      else s0
  else
    let s1 : State := if i.button = false then OpenDoor i now junk s0 else s0
    let s2 : State :=
      if s1.CurrentMotorPosition = posReleased ∧ s1.DayAndNight ∧ s1.DoorStatus = false then
        StartMotor i now junk { s1 with LastOperation := opLock }
      else s1
    if s2.CurrentMotorPosition = posOpen then
      if s2.DoorStatus then
        StartMotor i now junk { s2 with LastOperation := opRelease }
      else if now - s2.SecurityTimeout > SECURITY_TIMEOUT then
        StartMotor i now junk
          { s2 with LastOperation := if s2.DayAndNight then opLock else opRelease }
      else s2
    else s2

/-- Power-on state: C++ zero-initialized globals (position 0 = `posLocked`,
operation 0 = `opNothing`, step 0 = `calNothing`), output pins low, plus the
EEPROM content surviving from the previous session. -/
def initState (store : Store) : State where
  DayAndNight := false
  DoorStatus := false
  MotorIsMoving := false
  MotorCounter := 0
  PrevCounter := 0
  ObstacleTimeout := 0
  SecurityTimeout := 0
  RequestedPulses := 0
  CurrentMotorPosition := posLocked
  PreviousMotorPosition := posLocked
  LastOperation := opNothing
  CalibrationStep := calNothing
  configuration := ⟨0, 0, 0⟩
  pinMotor1 := false
  pinMotor2 := false
  pinMotorEnable := false
  store := store
  nStops := 0
  nStarts := 0
  nConfWrites := 0

/-- `void setup()`: loads the configuration record, calls `StopMotor()`
(which WRITES `EEPROM_LOC_LAST` with the zero-initialized current position),
then reads `EEPROM_LOC_LAST` back into `CurrentMotorPosition` and its
shadow, and finally arms the calibration sequencer when the reset jumper pin
reads HIGH. -/
def setup (i : Inputs) (now : Nat) (store : Store) : State :=
  let s := initState store
  let s : State := { s with configuration := s.store.conf }
  let s := StopMotor now s
  let s : State :=
    { s with
      CurrentMotorPosition := s.store.lastPos
      PreviousMotorPosition := s.store.lastPos }
  let s : State := { s with CalibrationStep := calNothing }
  if i.jReset then DoCalibration now { s with CalibrationStep := calOpen } else s

/-! Sample configurations, input snapshots and states used by the concrete
theorems below. -/

/-- The spec's sample configuration {open=100, close=80, release=20}. -/
def conf0 : ConfStuct := ⟨100, 80, 20⟩

/-- A store persisted by a previous session that ended at position Open. -/
def st0 : Store := ⟨conf0, posOpen⟩

/-- Normal-operation inputs: all jumpers LOW, button HIGH (not pressed),
door sensor LOW (closed), day/night LOW. -/
def i_norm : Inputs := ⟨false, false, false, true, false, false⟩

/-- Day/night pin HIGH, button not pressed, door closed, jumpers LOW. -/
def i_day : Inputs := ⟨false, false, false, true, false, true⟩

/-- Error-yes jumper pin HIGH, button HIGH (not pressed), the rest LOW. -/
def i_err : Inputs := ⟨false, true, false, true, false, false⟩

/-- Button pressed (LOW), everything else LOW. -/
def i_pressed : Inputs := ⟨false, false, false, false, false, false⟩

/-- Reset jumper pin HIGH at boot, no-release jumper LOW: calibration boot. -/
def i_cal : Inputs := ⟨true, false, false, true, false, false⟩

/-- Reset jumper pin HIGH at boot, no-release jumper HIGH. -/
def i_calNR : Inputs := ⟨true, false, true, true, false, false⟩

/-- An idle state right after a normal boot against `st0`. -/
def s_idle : State := setup i_norm 0 st0

/-- An idle state at position Released. -/
def s_released : State := { s_idle with CurrentMotorPosition := posReleased }

/-- An idle state at position Open with `LastOperation` cleared. -/
def s_openIdle : State := { s_idle with CurrentMotorPosition := posOpen }

/-- A moving state in the middle of an Open motion whose encoder counter has
not advanced since the last sample (a stall). -/
def s_stall : State :=
  { s_idle with
    MotorIsMoving := true
    LastOperation := opOpen
    MotorCounter := 42
    PrevCounter := 42
    RequestedPulses := 750
    pinMotor1 := true
    pinMotor2 := false
    pinMotorEnable := true }

/-- An idle state with a pending Lock operation. -/
def s_lock : State := { s_idle with LastOperation := opLock }

/-- An idle state with a pending Unlock operation. -/
def s_unlock : State := { s_idle with LastOperation := opUnlock }

/-- An idle state with a pending Lock operation while the door reads open. -/
def s_lockDoorOpen : State := { s_lock with DoorStatus := true }

/-- A store whose configuration has never been calibrated. -/
def stFresh : Store := ⟨⟨0, 0, 0⟩, posLocked⟩

/-- The state right after a calibration boot (reset jumper pin HIGH). -/
def b_cal : State := setup i_cal 0 stFresh

/-- The state after the open-phase stall with measured pulse count `m1`:
`m1` encoder interrupts fire, then the stall handler runs. -/
def calStall1 (i : Inputs) (m1 : Nat) : State :=
  StopByObstacle i 100 false (GetEncoder^[m1] b_cal)

/-- The state after the close-phase stall with measured pulse count `m2`. -/
def calStall2 (i : Inputs) (m1 m2 : Nat) : State :=
  StopByObstacle i 200 false (GetEncoder^[m2] (calStall1 i m1))

/-- At most one of the two motor direction outputs is asserted. -/
def DirOk (s : State) : Prop := s.pinMotor1 = false ∨ s.pinMotor2 = false

/-- Reachable states of the system: any boot, followed by any interleaving
of loop iterations (with arbitrary inputs, clock values and indeterminate
`motor_direction` values) and encoder interrupts. -/
inductive Reachable : State → Prop where
  | boot (i : Inputs) (now : Nat) (store : Store) : Reachable (setup i now store)
  | tick (i : Inputs) (now : Nat) (junk : Bool) {s : State} :
      Reachable s → Reachable (loop i now junk s)
  | pulse {s : State} : Reachable s → Reachable (GetEncoder s)

/-- Relation between a state and the state after one control-flow step:
either a motion just started (the start counter advanced by one, the pulse
counter was reset to 0 and the motor is moving), or the pulse counter and
the start counter are untouched. -/
def CounterStep (s t : State) : Prop :=
  (t.nStarts = s.nStarts + 1 ∧ t.MotorCounter = 0 ∧ t.MotorIsMoving = true) ∨
  (t.nStarts = s.nStarts ∧ t.MotorCounter = s.MotorCounter)

/-! Theorems for the claims. -/

/-- `StartMotor` either returns the state unchanged or drives the two
direction pins with complementary values. -/
theorem startMotor_dir (i : Inputs) (now : Nat) (junk : Bool) (s : State) :
    StartMotor i now junk s = s ∨
    (StartMotor i now junk s).pinMotor2 = !(StartMotor i now junk s).pinMotor1 := by
  unfold StartMotor
  split
  · left; rfl
  · split
    · left; rfl
    · right; rfl

/-- Complementary direction pins satisfy the exclusivity invariant. -/
theorem dirOk_of_compl (t : State) (h : t.pinMotor2 = !t.pinMotor1) : DirOk t := by
  rcases Bool.eq_false_or_eq_true t.pinMotor1 with hp | hp
  · right; rw [h, hp]; rfl
  · left; exact hp

/-- `StartMotor` preserves direction-pin exclusivity. -/
theorem dirOk_startMotor (i : Inputs) (now : Nat) (junk : Bool) (s : State)
    (h : DirOk s) : DirOk (StartMotor i now junk s) := by
  rcases startMotor_dir i now junk s with he | hc
  · rw [he]; exact h
  · exact dirOk_of_compl _ hc

/-- `StopMotor` clears both direction pins. -/
theorem dirOk_stopMotor (now : Nat) (s : State) : DirOk (StopMotor now s) := by
  left; rfl

/-- `DoCalibration` preserves direction-pin exclusivity: an active step
writes complementary values, the other steps leave the pins alone. -/
theorem dirOk_doCalibration (now : Nat) (s : State) (h : DirOk s) :
    DirOk (DoCalibration now s) := by
  unfold DoCalibration
  split
  · right; rfl
  · left; rfl
  · exact h
  · exact h

/-- `OpenDoor` preserves direction-pin exclusivity. -/
theorem dirOk_openDoor (i : Inputs) (now : Nat) (junk : Bool) (s : State)
    (h : DirOk s) : DirOk (OpenDoor i now junk s) := by
  unfold OpenDoor
  split
  · exact h
  · exact dirOk_startMotor _ _ _ _ h

/-- `StopByObstacle` always leaves the direction pins exclusive. -/
theorem dirOk_stopByObstacle (i : Inputs) (now : Nat) (junk : Bool) (s : State) :
    DirOk (StopByObstacle i now junk s) := by
  simp only [StopByObstacle]
  split
  · exact dirOk_doCalibration _ _ (dirOk_stopMotor now s)
  · exact dirOk_doCalibration _ _ (dirOk_stopMotor now s)
  · split
    · exact dirOk_openDoor _ _ _ _ (dirOk_stopMotor now s)
    · exact dirOk_stopMotor now s

/-- A loop iteration preserves direction-pin exclusivity. -/
theorem dirOk_loop (i : Inputs) (now : Nat) (junk : Bool) (s : State)
    (h : DirOk s) : DirOk (loop i now junk s) := by
  simp only [loop]
  set s0 : State := { s with DoorStatus := i.sensor, DayAndNight := i.dayNight } with hs0
  have h0 : DirOk s0 := h
  split
  · split
    · split
      · exact dirOk_stopMotor _ _
      · exact h0
    · split
      · exact dirOk_stopByObstacle _ _ _ _
      · exact h0
  · set s1 : State := if i.button = false then OpenDoor i now junk s0 else s0 with hs1
    have h1 : DirOk s1 := by
      rw [hs1]
      split
      · exact dirOk_openDoor _ _ _ _ h0
      · exact h0
    set s2 : State :=
      if s1.CurrentMotorPosition = posReleased ∧ s1.DayAndNight = true ∧
          s1.DoorStatus = false then
        StartMotor i now junk { s1 with LastOperation := opLock }
      else s1 with hs2
    have h2 : DirOk s2 := by
      rw [hs2]
      split
      · exact dirOk_startMotor _ _ _ _ h1
      · exact h1
    split
    · split
      · exact dirOk_startMotor _ _ _ _ h2
      · split
        · exact dirOk_startMotor _ _ _ _ h2
        · exact h2
    · exact h2

/-- `setup` leaves the direction pins exclusive. -/
theorem dirOk_setup (i : Inputs) (now : Nat) (store : Store) :
    DirOk (setup i now store) := by
  simp only [setup]
  split
  · exact dirOk_doCalibration _ _ (Or.inl rfl)
  · exact Or.inl rfl

/-- Iterating the encoder ISR n times adds n to `MotorCounter` and changes
nothing else. -/
theorem getEncoder_iterate (n : Nat) (s : State) :
    GetEncoder^[n] s = { s with MotorCounter := s.MotorCounter + n } := by
  induction n with
  | zero => rfl
  | succ k ih => rw [Function.iterate_succ_apply', ih]; rfl

/-- `StartMotor` either starts a motion — advancing the start counter and
resetting the pulse counter — or returns the state untouched. -/
theorem startMotor_start_or_id (i : Inputs) (now : Nat) (junk : Bool) (s : State) :
    ((StartMotor i now junk s).nStarts = s.nStarts + 1 ∧
      (StartMotor i now junk s).MotorCounter = 0 ∧
      (StartMotor i now junk s).MotorIsMoving = true) ∨
    StartMotor i now junk s = s := by
  unfold StartMotor
  split
  · right; rfl
  · split
    · right; rfl
    · left; exact ⟨rfl, rfl, rfl⟩

/-- `StartMotor` performs one `CounterStep`. -/
theorem counterStep_startMotor (i : Inputs) (now : Nat) (junk : Bool) (s : State) :
    CounterStep s (StartMotor i now junk s) := by
  rcases startMotor_start_or_id i now junk s with hst | hid
  · exact Or.inl hst
  · rw [hid]; exact Or.inr ⟨rfl, rfl⟩

/-- `StartMotor` is the identity on a moving state. -/
theorem startMotor_of_moving (i : Inputs) (now : Nat) (junk : Bool) (s : State)
    (h : s.MotorIsMoving = true) : StartMotor i now junk s = s := by
  unfold StartMotor
  rw [h]
  rfl

/-- `StopMotor` touches neither the pulse counter nor the start counter and
leaves the motor idle. -/
theorem stopMotor_counters (now : Nat) (s : State) :
    (StopMotor now s).nStarts = s.nStarts ∧
    (StopMotor now s).MotorCounter = s.MotorCounter ∧
    (StopMotor now s).MotorIsMoving = false :=
  ⟨rfl, rfl, rfl⟩

/-- `DoCalibration` performs one `CounterStep`: an active step starts a
motion, the other steps leave both counters alone. -/
theorem counterStep_doCalibration (now : Nat) (s : State) :
    CounterStep s (DoCalibration now s) := by
  unfold DoCalibration CounterStep
  split
  · exact Or.inl ⟨rfl, rfl, rfl⟩
  · exact Or.inl ⟨rfl, rfl, rfl⟩
  · exact Or.inr ⟨rfl, rfl⟩
  · exact Or.inr ⟨rfl, rfl⟩

/-- A counter-preserving intermediate state can be spliced in front of a
`CounterStep`. -/
theorem counterStep_pre {s t u : State}
    (h1 : t.nStarts = s.nStarts ∧ t.MotorCounter = s.MotorCounter)
    (h2 : CounterStep t u) : CounterStep s u := by
  rcases h2 with ⟨hn, hc, hm⟩ | ⟨hn, hc⟩
  · exact Or.inl ⟨by rw [hn, h1.1], hc, hm⟩
  · exact Or.inr ⟨by rw [hn, h1.1], by rw [hc, h1.2]⟩

/-- Two `CounterStep`s compose when the second one is counter-preserving
whenever the first one left the motor moving. -/
theorem counterStep_trans {s t u : State} (h1 : CounterStep s t) (h2 : CounterStep t u)
    (hm : t.MotorIsMoving = true →
      u.nStarts = t.nStarts ∧ u.MotorCounter = t.MotorCounter ∧
        u.MotorIsMoving = true) :
    CounterStep s u := by
  rcases h1 with ⟨hn, hc, hmv⟩ | hft
  · rcases hm hmv with ⟨un, uc, um⟩
    exact Or.inl ⟨by rw [un, hn], by rw [uc, hc], um⟩
  · exact counterStep_pre hft h2

/-- `OpenDoor` performs one `CounterStep`. -/
theorem counterStep_openDoor (i : Inputs) (now : Nat) (junk : Bool) (s : State) :
    CounterStep s (OpenDoor i now junk s) := by
  unfold OpenDoor
  split
  · exact Or.inr ⟨rfl, rfl⟩
  · exact counterStep_pre ⟨rfl, rfl⟩ (counterStep_startMotor i now junk _)

/-- `StopByObstacle` performs one `CounterStep`. -/
theorem counterStep_stopByObstacle (i : Inputs) (now : Nat) (junk : Bool) (s : State) :
    CounterStep s (StopByObstacle i now junk s) := by
  simp only [StopByObstacle]
  split
  · exact counterStep_pre ⟨rfl, rfl⟩ (counterStep_doCalibration _ _)
  · exact counterStep_pre ⟨rfl, rfl⟩ (counterStep_doCalibration _ _)
  · split
    · exact counterStep_pre ⟨rfl, rfl⟩ (counterStep_openDoor _ _ _ _)
    · exact Or.inr ⟨rfl, rfl⟩

/-- A loop iteration performs one `CounterStep`: the pulse counter is reset
during the tick exactly when the tick starts a motion. -/
theorem counterStep_loop (i : Inputs) (now : Nat) (junk : Bool) (s : State) :
    CounterStep s (loop i now junk s) := by
  simp only [loop]
  set s0 : State := { s with DoorStatus := i.sensor, DayAndNight := i.dayNight } with hs0
  split
  · split
    · split
      · exact Or.inr ⟨rfl, rfl⟩
      · exact Or.inr ⟨rfl, rfl⟩
    · split
      · exact counterStep_pre ⟨rfl, rfl⟩ (counterStep_stopByObstacle _ _ _ _)
      · exact Or.inr ⟨rfl, rfl⟩
  · set s1 : State := if i.button = false then OpenDoor i now junk s0 else s0 with hs1
    have h1 : CounterStep s s1 := by
      rw [hs1]
      split
      · exact counterStep_pre ⟨rfl, rfl⟩ (counterStep_openDoor _ _ _ _)
      · exact Or.inr ⟨rfl, rfl⟩
    set s2 : State :=
      if s1.CurrentMotorPosition = posReleased ∧ s1.DayAndNight = true ∧
          s1.DoorStatus = false then
        StartMotor i now junk { s1 with LastOperation := opLock }
      else s1 with hs2
    have h2 : CounterStep s1 s2 := by
      rw [hs2]
      split
      · exact counterStep_pre ⟨rfl, rfl⟩ (counterStep_startMotor _ _ _ _)
      · exact Or.inr ⟨rfl, rfl⟩
    have hm12 : s1.MotorIsMoving = true →
        s2.nStarts = s1.nStarts ∧ s2.MotorCounter = s1.MotorCounter ∧
          s2.MotorIsMoving = true := by
      intro hmv
      rw [hs2]
      split
      · rw [startMotor_of_moving i now junk { s1 with LastOperation := opLock } hmv]
        exact ⟨rfl, rfl, hmv⟩
      · exact ⟨rfl, rfl, hmv⟩
    have h12 : CounterStep s s2 := counterStep_trans h1 h2 hm12
    split
    · split
      · refine counterStep_trans h12
          (counterStep_pre ⟨rfl, rfl⟩ (counterStep_startMotor _ _ _ _)) ?_
        intro hmv
        rw [startMotor_of_moving i now junk { s2 with LastOperation := opRelease } hmv]
        exact ⟨rfl, rfl, hmv⟩
      · split
        · refine counterStep_trans h12
            (counterStep_pre ⟨rfl, rfl⟩ (counterStep_startMotor _ _ _ _)) ?_
          intro hmv
          rw [startMotor_of_moving i now junk
            { s2 with LastOperation := if s2.DayAndNight then opLock else opRelease } hmv]
          exact ⟨rfl, rfl, hmv⟩
        · exact h12
    · exact h12

/-- Claim C10.  `MotorCounter` is reset to 0 exactly when a motion starts
and at no other point: over any loop iteration the counter is either reset
together with a motion start (the start counter advances by one and the
motor ends up moving) or untouched; `StartMotor` itself either starts and
resets or is the identity; `DoCalibration` resets exactly in its active
steps (where it starts a motion); `StopMotor` touches neither counter; and
the encoder interrupt — the only other writer — only increments, so the
counter is non-decreasing between resets. -/
theorem C10_counter_reset_exactly_at_start :
    (∀ (i : Inputs) (now : Nat) (junk : Bool) (s : State),
      ((loop i now junk s).nStarts = s.nStarts + 1 ∧
        (loop i now junk s).MotorCounter = 0 ∧
        (loop i now junk s).MotorIsMoving = true) ∨
      ((loop i now junk s).nStarts = s.nStarts ∧
        (loop i now junk s).MotorCounter = s.MotorCounter)) ∧
    (∀ (i : Inputs) (now : Nat) (junk : Bool) (s : State),
      ((StartMotor i now junk s).nStarts = s.nStarts + 1 ∧
        (StartMotor i now junk s).MotorCounter = 0 ∧
        (StartMotor i now junk s).MotorIsMoving = true) ∨
      StartMotor i now junk s = s) ∧
    (∀ (now : Nat) (s : State),
      ((DoCalibration now s).nStarts = s.nStarts + 1 ∧
        (DoCalibration now s).MotorCounter = 0 ∧
        (DoCalibration now s).MotorIsMoving = true) ∨
      ((DoCalibration now s).nStarts = s.nStarts ∧
        (DoCalibration now s).MotorCounter = s.MotorCounter)) ∧
    (∀ (now : Nat) (s : State),
      (StopMotor now s).MotorCounter = s.MotorCounter ∧
      (StopMotor now s).nStarts = s.nStarts) ∧
    (∀ s : State,
      (GetEncoder s).MotorCounter = s.MotorCounter + 1 ∧
      (GetEncoder s).nStarts = s.nStarts) :=
  ⟨fun i now junk s => counterStep_loop i now junk s,
   fun i now junk s => startMotor_start_or_id i now junk s,
   fun now s => counterStep_doCalibration now s,
   fun _ _ => ⟨rfl, rfl⟩,
   fun _ => ⟨rfl, rfl⟩⟩

/-- Claim C9.  In every reachable state of the system — any boot followed
by any interleaving of loop iterations and encoder interrupts — at most one
of the two motor direction outputs is asserted. -/
theorem C9_direction_pins_exclusive (s : State) (h : Reachable s) :
    ¬(s.pinMotor1 = true ∧ s.pinMotor2 = true) := by
  have hd : DirOk s := by
    induction h with
    | boot i now store => exact dirOk_setup i now store
    | tick i now junk hr ih => exact dirOk_loop i now junk _ ih
    | pulse hr ih => exact ih
  rcases hd with hp | hp <;> rintro ⟨h1, h2⟩
  · rw [hp] at h1; exact Bool.false_ne_true h1
  · rw [hp] at h2; exact Bool.false_ne_true h2

/-- Claim C9, witness. -/
theorem C9_direction_pins_exclusive_witness :
    ¬((setup i_norm 0 st0).pinMotor1 = true ∧ (setup i_norm 0 st0).pinMotor2 = true) :=
  C9_direction_pins_exclusive (setup i_norm 0 st0) (Reachable.boot i_norm 0 st0)

/-- Claim C1.  The claim is right about the intent and the code defeats it:
`setup` calls `StopMotor()` before reading `EEPROM_LOC_LAST`, and that call
writes the zero-initialized `CurrentMotorPosition` (`posLocked`) into the
slot, so for every persisted configuration and every persisted last
position, the position loaded at startup (and the slot itself) is
`posLocked` — not the persisted value. -/
theorem C1_boot_clobbers_last_position (c : ConfStuct) (p : MPosition) (i : Inputs)
    (now : Nat) :
    (setup i now ⟨c, p⟩).CurrentMotorPosition = posLocked ∧
    (setup i now ⟨c, p⟩).PreviousMotorPosition = posLocked ∧
    (setup i now ⟨c, p⟩).store.lastPos = posLocked := by
  rcases i with ⟨jr, je, jn, bu, se, dn⟩
  cases jr <;> exact ⟨rfl, rfl, rfl⟩

/-- Claim C2, counterexample.  With the day/night pin reading HIGH, the
position Released and the door sensor reading closed, an idle loop tick
does dispatch a Lock motion, contrary to the claim's parenthetical. -/
theorem C2_counterexample :
    s_released.MotorIsMoving = false ∧
    s_released.CurrentMotorPosition = posReleased ∧
    i_day.dayNight = true ∧
    i_day.sensor = false ∧
    (loop i_day 5 false s_released).MotorIsMoving = true ∧
    (loop i_day 5 false s_released).LastOperation = opLock := by
  decide

/-- Claim C2, amended.  The dispatcher starts a Lock motion from position
Released only when the day/night pin reads HIGH — the code treats a HIGH
reading as "lock after close", the opposite polarity of the claim's GPIO
table: with the pin LOW, position Released and the door closed no Lock
motion is dispatched, and with the pin HIGH (button not pressed) a Lock
motion starts. -/
theorem C2_lock_dispatch_polarity (i : Inputs) (now : Nat) (junk : Bool) (s : State)
    (hmov : s.MotorIsMoving = false) (hpos : s.CurrentMotorPosition = posReleased)
    (hdoor : i.sensor = false) :
    (i.dayNight = false →
      ¬((loop i now junk s).MotorIsMoving = true ∧
        (loop i now junk s).LastOperation = opLock)) ∧
    (i.dayNight = true → i.button = true →
      (loop i now junk s).MotorIsMoving = true ∧
      (loop i now junk s).LastOperation = opLock) := by
  constructor
  · intro hdn
    unfold loop OpenDoor StartMotor
    simp only [hmov, hpos, hdoor, hdn]
    cases hb : i.button <;> simp [hb, hpos]
  · intro hdn hb
    unfold loop StartMotor
    simp [hmov, hpos, hdoor, hdn, hb]

/-- Claim C2 amended, witness. -/
theorem C2_lock_dispatch_polarity_witness :
    s_released.MotorIsMoving = false ∧
    s_released.CurrentMotorPosition = posReleased ∧
    i_day.sensor = false ∧
    ((i_day.dayNight = false →
      ¬((loop i_day 5 false s_released).MotorIsMoving = true ∧
        (loop i_day 5 false s_released).LastOperation = opLock)) ∧
     (i_day.dayNight = true → i_day.button = true →
      (loop i_day 5 false s_released).MotorIsMoving = true ∧
      (loop i_day 5 false s_released).LastOperation = opLock)) :=
  ⟨rfl, rfl, rfl, C2_lock_dispatch_polarity i_day 5 false s_released rfl rfl rfl⟩

/-- Claim C3, counterexample.  A stall during normal operation (calibration
state `calNothing`) with the error-yes jumper pin HIGH invokes the Open
dispatch, but the dispatch's button debounce aborts because the button is
not pressed: no re-open motion starts. -/
theorem C3_counterexample :
    s_stall.CalibrationStep = calNothing ∧
    s_stall.MotorIsMoving = true ∧
    i_err.jErrorYes = true ∧
    (StopByObstacle i_err 1000 false s_stall).MotorIsMoving = false ∧
    (StopByObstacle i_err 1000 false s_stall).nStarts = s_stall.nStarts := by
  decide

/-- Claim C3, amended.  When a stall stops the motor during normal
operation and the error-yes jumper pin reads HIGH, the stall handler does
invoke the Open dispatch (the handler equals stop-then-`OpenDoor`), but the
dispatch debounces the button and returns unless the button reads pressed,
so a re-open motion starts only in that case; when the pin reads LOW the
handler is exactly the stop and the door stays at its stopped position. -/
theorem C3_stall_policy (i : Inputs) (now : Nat) (junk : Bool) (s : State)
    (hcal : s.CalibrationStep = calNothing) :
    (i.jErrorYes = true →
      StopByObstacle i now junk s = OpenDoor i now junk (StopMotor now s)) ∧
    (i.jErrorYes = false → StopByObstacle i now junk s = StopMotor now s) ∧
    (i.jErrorYes = true → i.button = true →
      StopByObstacle i now junk s = StopMotor now s ∧
      (StopByObstacle i now junk s).MotorIsMoving = false) := by
  have hc : (StopMotor now s).CalibrationStep = calNothing := hcal
  refine ⟨?_, ?_, ?_⟩
  · intro hj
    unfold StopByObstacle
    simp [hc, hj]
  · intro hj
    unfold StopByObstacle
    simp [hc, hj]
  · intro hj hb
    unfold StopByObstacle
    simp [hc, hj, OpenDoor, hb]
    rfl

/-- Claim C3 amended, witness. -/
theorem C3_stall_policy_witness :
    s_stall.CalibrationStep = calNothing ∧
    ((i_err.jErrorYes = true →
      StopByObstacle i_err 1000 false s_stall =
        OpenDoor i_err 1000 false (StopMotor 1000 s_stall)) ∧
     (i_err.jErrorYes = false →
      StopByObstacle i_err 1000 false s_stall = StopMotor 1000 s_stall) ∧
     (i_err.jErrorYes = true → i_err.button = true →
      StopByObstacle i_err 1000 false s_stall = StopMotor 1000 s_stall ∧
      (StopByObstacle i_err 1000 false s_stall).MotorIsMoving = false)) :=
  ⟨rfl, C3_stall_policy i_err 1000 false s_stall rfl⟩

/-- Claim C4.  If `StartMotor` runs while the motor is idle and
`LastOperation = opNothing` (reachable by pressing the button at position
Open, where the button dispatch leaves the operation unassigned), the
operation `switch` matches no case yet the function still proceeds: it sets
`MotorIsMoving`, resets `MotorCounter`, keeps the stale `RequestedPulses`,
drives the direction pins from the indeterminate value of the uninitialized
local `motor_direction`, and enables the driver. -/
theorem C4_startMotor_opNothing (i : Inputs) (now : Nat) (junk : Bool) (s : State)
    (hmov : s.MotorIsMoving = false) (hop : s.LastOperation = opNothing) :
    (StartMotor i now junk s).MotorIsMoving = true ∧
    (StartMotor i now junk s).MotorCounter = 0 ∧
    (StartMotor i now junk s).RequestedPulses = s.RequestedPulses ∧
    (StartMotor i now junk s).pinMotor1 = junk ∧
    (StartMotor i now junk s).pinMotor2 = !junk ∧
    (StartMotor i now junk s).pinMotorEnable = true ∧
    (s.CurrentMotorPosition = posOpen → i.button = false →
      OpenDoor i now junk s = StartMotor i now junk s) := by
  have hres : StartMotor i now junk s =
      { s with
        MotorIsMoving := true
        PrevCounter := -1
        MotorCounter := 0
        ObstacleTimeout := now
        RequestedPulses := s.RequestedPulses
        pinMotor1 := junk
        pinMotor2 := !junk
        pinMotorEnable := true
        nStarts := s.nStarts + 1 } := by
    unfold StartMotor
    simp [hmov, hop]
  refine ⟨by rw [hres], by rw [hres], by rw [hres], by rw [hres], by rw [hres],
    by rw [hres], ?_⟩
  intro hpos hb
  rcases s with ⟨d1, d2, mv, mc, pc, ot, st, rp, cur, prev, lop, cs, cfg, p1, p2, pe,
    sto, n1, n2, n3⟩
  unfold OpenDoor
  simp [hb, hpos] at hpos ⊢
  simp [hpos]

/-- Claim C4, witness. -/
theorem C4_startMotor_opNothing_witness :
    s_openIdle.MotorIsMoving = false ∧
    s_openIdle.LastOperation = opNothing ∧
    ((StartMotor i_pressed 7 true s_openIdle).MotorIsMoving = true ∧
     (StartMotor i_pressed 7 true s_openIdle).MotorCounter = 0 ∧
     (StartMotor i_pressed 7 true s_openIdle).RequestedPulses = s_openIdle.RequestedPulses ∧
     (StartMotor i_pressed 7 true s_openIdle).pinMotor1 = true ∧
     (StartMotor i_pressed 7 true s_openIdle).pinMotor2 = !true ∧
     (StartMotor i_pressed 7 true s_openIdle).pinMotorEnable = true ∧
     (s_openIdle.CurrentMotorPosition = posOpen → i_pressed.button = false →
      OpenDoor i_pressed 7 true s_openIdle = StartMotor i_pressed 7 true s_openIdle)) :=
  ⟨rfl, rfl, C4_startMotor_opNothing i_pressed 7 true s_openIdle rfl rfl⟩

/-- Claim C5.  For a loop tick during a motion where the counter made no
progress since the last sample and the stall timeout has elapsed, the motor
is stopped exactly once (the stop instrumentation counter advances by one),
and with calibration state `calNothing` and the error-yes jumper pin LOW no
motion is started by the tick (the start instrumentation counter is
unchanged and the motor ends idle). -/
theorem C5_stall_stops_once (i : Inputs) (now : Nat) (junk : Bool) (s : State)
    (hmov : s.MotorIsMoving = true)
    (hstuck : s.PrevCounter = (s.MotorCounter : Int))
    (htime : now - s.ObstacleTimeout > MOTOR_TIMEOUT)
    (hcal : s.CalibrationStep = calNothing)
    (hj : i.jErrorYes = false) :
    (loop i now junk s).nStops = s.nStops + 1 ∧
    (loop i now junk s).nStarts = s.nStarts ∧
    (loop i now junk s).MotorIsMoving = false := by
  unfold loop StopByObstacle
  simp [hmov, hstuck, htime, hcal, hj, StopMotor]

/-- Claim C5, witness. -/
theorem C5_stall_stops_once_witness :
    s_stall.MotorIsMoving = true ∧
    s_stall.PrevCounter = (s_stall.MotorCounter : Int) ∧
    1000 - s_stall.ObstacleTimeout > MOTOR_TIMEOUT ∧
    s_stall.CalibrationStep = calNothing ∧
    i_norm.jErrorYes = false ∧
    ((loop i_norm 1000 false s_stall).nStops = s_stall.nStops + 1 ∧
     (loop i_norm 1000 false s_stall).nStarts = s_stall.nStarts ∧
     (loop i_norm 1000 false s_stall).MotorIsMoving = false) :=
  ⟨rfl, rfl, by decide, rfl, rfl,
    C5_stall_stops_once i_norm 1000 false s_stall rfl rfl (by decide) rfl rfl⟩

/-- Claim C6.  A calibration run: booting with the reset jumper HIGH arms
`calOpen` and starts the open-phase motion; the open-phase stall records the
measured count into `len_release` when the no-release jumper pin is LOW and
into `len_open` when it is HIGH, advances to `calClose` and starts the
close-phase motion; the close-phase stall records `len_close`, passes
through `calFinish` where the three-field configuration is persisted as a
unit — exactly once in the whole run — and the sequencer ends at
`calNothing` with the motor idle. -/
theorem C6_calibration_run (m1 m2 : Nat) :
    b_cal.CalibrationStep = calOpen ∧
    b_cal.MotorIsMoving = true ∧
    b_cal.MotorCounter = 0 ∧
    b_cal.nConfWrites = 0 ∧
    (calStall1 i_cal m1).CalibrationStep = calClose ∧
    (calStall1 i_cal m1).MotorIsMoving = true ∧
    (calStall1 i_cal m1).MotorCounter = 0 ∧
    (calStall1 i_cal m1).configuration.len_release = (m1 : Int) ∧
    (calStall1 i_cal m1).nConfWrites = 0 ∧
    (calStall1 i_calNR m1).configuration.len_open = (m1 : Int) ∧
    (calStall2 i_cal m1 m2).CalibrationStep = calNothing ∧
    (calStall2 i_cal m1 m2).MotorIsMoving = false ∧
    (calStall2 i_cal m1 m2).configuration.len_close = (m2 : Int) ∧
    (calStall2 i_cal m1 m2).configuration.len_release = (m1 : Int) ∧
    (calStall2 i_cal m1 m2).store.conf = (calStall2 i_cal m1 m2).configuration ∧
    (calStall2 i_cal m1 m2).nConfWrites = 1 := by
  simp [calStall1, calStall2, b_cal, setup, initState, stFresh, i_cal, i_calNR,
    StopMotor, DoCalibration, StopByObstacle, OpenDoor, StartMotor,
    getEncoder_iterate, dirOpen, dirClose]

/-- Claim C7.  A Lock request while the door sensor reads open makes
`StartMotor` abort after the settle delay: the state is returned completely
unchanged (no direction or enable change, counter not reset, no error
recorded anywhere) and the motor stays idle. -/
theorem C7_lock_aborts_when_door_open (i : Inputs) (now : Nat) (junk : Bool)
    (s : State) (hmov : s.MotorIsMoving = false) (hop : s.LastOperation = opLock)
    (hdoor : s.DoorStatus = true) :
    StartMotor i now junk s = s ∧ (StartMotor i now junk s).MotorIsMoving = false := by
  have h : StartMotor i now junk s = s := by
    unfold StartMotor
    simp [hmov, hop, hdoor]
  exact ⟨h, by rw [h]; exact hmov⟩

/-- Claim C7, witness. -/
theorem C7_lock_aborts_when_door_open_witness :
    s_lockDoorOpen.MotorIsMoving = false ∧
    s_lockDoorOpen.LastOperation = opLock ∧
    s_lockDoorOpen.DoorStatus = true ∧
    (StartMotor i_norm 9 true s_lockDoorOpen = s_lockDoorOpen ∧
     (StartMotor i_norm 9 true s_lockDoorOpen).MotorIsMoving = false) :=
  ⟨rfl, rfl, rfl, C7_lock_aborts_when_door_open i_norm 9 true s_lockDoorOpen rfl rfl rfl⟩

/-- Claim C8.  With configuration {open=100, close=80, release=20} and the
no-release jumper pin LOW (release stroke not skipped), `StartMotor`
computes `RequestedPulses = 80 + 20 = 100` for both Lock and Unlock. -/
theorem C8_requested_pulses_sample :
    s_lock.configuration = ⟨100, 80, 20⟩ ∧
    i_norm.jNoRelease = false ∧
    (StartMotor i_norm 0 false s_lock).RequestedPulses = 100 ∧
    (StartMotor i_norm 0 false s_unlock).RequestedPulses = 100 := by
  decide

end Keyless
